import Mathlib

/-
Verification of the La Luna Resort booking backend (src/main.py, src/schemas.py).

The development shallowly embeds the room/booking data model and the four
endpoints that the specification's claims are about:

* `create_booking`  — POST /bookings   (src/main.py lines 120-140)
* `check_availability` — POST /availability (src/main.py lines 94-116)
* `list_rooms`      — GET /rooms       (src/main.py lines 78-85)
* `list_bookings`   — GET /bookings    (src/main.py lines 142-150)

Dates are Python `datetime.date` values (day granularity); the source stores
them as ISO-8601 strings and issues MongoDB `$lt`/`$gt` filters on those
strings, which MongoDB compares lexicographically.  The embedding keeps the
typed date on the stored document and applies the ISO serialization at every
comparison site, exactly where `isoformat()` is called in the source; the
lexicographic string order itself is `strLt` below.

The persistence helpers `create_document` / `get_documents` live in
`database.py`, which is not part of src/; they are modelled from the spec
(§6): `insert_one` appends a document and returns a fresh opaque id, `find`
is a pure read.
-/

/-- Lexicographic comparison of character lists by code point, the order in
which MongoDB compares the stored ISO-8601 date strings (spec §6: comparison
is lexicographic). -/
def listLtB : List Char → List Char → Bool
  | [], [] => false
  | [], _ :: _ => true
  | _ :: _, [] => false
  | a :: as, b :: bs =>
    a.toNat < b.toNat || (a.toNat == b.toNat && listLtB as bs)

/-- Lexicographic string comparison (MongoDB `$lt` on strings). -/
def strLt (a b : String) : Bool := listLtB a.data b.data

/-- The ASCII digit character for `n` (`0` ↦ `'0'`, …, `9` ↦ `'9'`). -/
def digitChar (n : Nat) : Char := Char.ofNat (48 + n)

/-- `n` rendered as exactly `w` decimal digits, most significant first
(zero-padded), as Python `date.isoformat` does for year, month and day. -/
def padDigits : Nat → Nat → List Char
  | 0, _ => []
  | w+1, n => digitChar (n / 10 ^ w) :: padDigits w (n % 10 ^ w)

/-- A Python `datetime.date`: a calendar date with no time-of-day component. -/
structure PyDate where
  year : Nat
  month : Nat
  day : Nat
deriving DecidableEq, Repr

/-- The ranges Python's `datetime.date` constructor enforces (year 1–9999,
month 1–12, day within the month, hence at most 31). -/
def PyDate.validB (d : PyDate) : Bool :=
  1 ≤ d.year && d.year ≤ 9999 && 1 ≤ d.month && d.month ≤ 12 && 1 ≤ d.day && d.day ≤ 31

/-- `date.isoformat()`: the `YYYY-MM-DD` string (zero-padded, 4-digit year). -/
def PyDate.isoformat (d : PyDate) : String :=
  ⟨padDigits 4 d.year ++ '-' :: (padDigits 2 d.month ++ '-' :: padDigits 2 d.day)⟩

/-- Python `date` strict comparison `a < b`: lexicographic on
(year, month, day), i.e. chronological order. -/
def PyDate.lt (a b : PyDate) : Bool :=
  a.year < b.year || (a.year == b.year &&
    (a.month < b.month || (a.month == b.month && a.day < b.day)))

/-- Python `date` comparison `a <= b`. -/
def PyDate.le (a b : PyDate) : Bool :=
  a.year < b.year || (a.year == b.year &&
    (a.month < b.month || (a.month == b.month && a.day ≤ b.day)))

/-- The `Room` request schema (src/schemas.py lines 20-32).  The source's
`price_per_night` is a Python float; the core performs no arithmetic on it,
so it is carried as a rational. -/
structure Room where
  name : String
  room_type : String
  description : Option String
  beds : Nat
  capacity : Nat
  price_per_night : Rat
  amenities : List String
  images : List String
deriving DecidableEq, Repr

/-- The `Booking` request schema (src/schemas.py lines 34-47). -/
structure Booking where
  room_id : String
  guest_name : String
  email : String
  phone : Option String
  check_in : PyDate
  check_out : PyDate
  guests : Nat
  special_requests : Option String
  status : String
deriving DecidableEq, Repr

/-- A room document as persisted: the schema fields plus the id issued by the
store (`RoomOut`, src/main.py lines 58-59). -/
structure StoredRoom extends Room where
  id : String
deriving DecidableEq, Repr

/-- A booking document as persisted: the schema fields plus the id issued by
the store (`BookingOut`, src/main.py lines 61-62). -/
structure StoredBooking extends Booking where
  id : String
deriving DecidableEq, Repr

/-- The database state: the `room` and `booking` collections. -/
structure DB where
  rooms : List StoredRoom
  bookings : List StoredBooking
deriving DecidableEq, Repr

/-- The `HTTPException`s the embedded endpoints raise (status code and
detail string, src/main.py lines 69, 97, 126, 137). -/
inductive ApiError where
  | badRequest (detail : String)
  | notFound (detail : String)
  | conflict (detail : String)
deriving DecidableEq, Repr

/-- An endpoint outcome: a value, or an `HTTPException` propagated to the
caller (which aborts the handler before any further state change). -/
inductive ApiResult (α : Type) where
  | ok (val : α)
  | error (err : ApiError)
deriving DecidableEq, Repr

/-- Whether an outcome is a success. -/
def ApiResult.isOk {α : Type} : ApiResult α → Bool
  | .ok _ => true
  | .error _ => false

/-- A hexadecimal digit, either case. -/
def isHexChar (c : Char) : Bool :=
  (48 ≤ c.toNat && c.toNat ≤ 57) || (97 ≤ c.toNat && c.toNat ≤ 102) ||
    (65 ≤ c.toNat && c.toNat ≤ 70)

/-- The strings accepted by `bson.ObjectId(id_str)` inside `_to_id`
(src/main.py lines 65-69): exactly 24 hexadecimal characters. -/
def isValidObjectId (s : String) : Bool :=
  s.data.length == 24 && s.data.all isHexChar

/-- The per-document filter of the overlap query in `create_booking`
(src/main.py lines 129-135): same `room_id`, stored `check_in` `$lt` the
requested check-out ISO string, stored `check_out` `$gt` the requested
check-in ISO string, and `status` `$ne` "cancelled". -/
def overlapFilterB (room_id : String) (check_in check_out : PyDate)
    (s : StoredBooking) : Bool :=
  s.room_id == room_id
    && strLt s.check_in.isoformat check_out.isoformat
    && strLt check_in.isoformat s.check_out.isoformat
    && s.status != "cancelled"

/-- The per-document filter of the overlap query in `check_availability`
(src/main.py lines 102-107): identical to `overlapFilterB` but with no
`room_id` clause — it gathers overlapping bookings across all rooms. -/
def availOverlapFilterB (check_in check_out : PyDate) (s : StoredBooking) : Bool :=
  strLt s.check_in.isoformat check_out.isoformat
    && strLt check_in.isoformat s.check_out.isoformat
    && s.status != "cancelled"

/-- Modelled from the spec: `create_document("booking", booking)` lives in
`database.py`, which is not under src/.  Per §6 it is
`insert_one(collection, doc) -> id`: it appends the document and returns the
fresh opaque id the store issued.  Id generation is modelled as the decimal
rendering of the collection size; no claim depends on id values. -/
def create_booking_document (bs : List StoredBooking) (b : Booking) :
    String × List StoredBooking :=
  (toString bs.length, bs ++ [⟨b, toString bs.length⟩])

/-- POST /bookings (src/main.py lines 120-140): validate the id, check the
room exists, run the overlap `find_one`, and only then `insert_one`. -/
def create_booking (st : DB) (booking : Booking) : ApiResult (String × DB) :=
  if !isValidObjectId booking.room_id then
    .error (.badRequest "Invalid ID format")
  else match st.rooms.find? (fun r => r.id == booking.room_id) with
  | none => .error (.notFound "Room not found")
  | some _ =>
    match st.bookings.find?
        (overlapFilterB booking.room_id booking.check_in booking.check_out) with
    | some _ => .error (.conflict "Room not available for selected dates")
    | none =>
      let res := create_booking_document st.bookings booking
      .ok (res.1, { st with bookings := res.2 })

/-- POST /availability (src/main.py lines 94-116): reject an empty range,
filter rooms by capacity, collect the room ids of all overlapping
non-cancelled bookings in one query, and return the candidates whose id is
not in that set. -/
def check_availability (st : DB) (check_in check_out : PyDate) (guests : Nat) :
    ApiResult (List StoredRoom) :=
  if PyDate.le check_out check_in then
    .error (.badRequest "Check-out must be after check-in")
  else
    let candidate_rooms := st.rooms.filter (fun r => guests ≤ r.capacity)
    let overlapping := st.bookings.filter (availOverlapFilterB check_in check_out)
    let booked_ids := overlapping.map (fun b => b.room_id)
    .ok (candidate_rooms.filter (fun r => !booked_ids.contains r.id))

/-- GET /rooms (src/main.py lines 78-85).  `get_documents` is modelled from
the spec (§6) as a pure read of the collection. -/
def list_rooms (st : DB) : List StoredRoom × DB := (st.rooms, st)

/-- GET /bookings (src/main.py lines 142-150): `filter_q` is the email
equality filter when `email` is truthy (neither `None` nor the empty
string), else no filter.  `get_documents` is modelled from the spec (§6) as
a pure read. -/
def list_bookings (st : DB) (email : Option String) : List StoredBooking × DB :=
  let filter_q : Option String :=
    match email with
    | some e => if e = "" then none else some e
    | none => none
  match filter_q with
  | some e => (st.bookings.filter (fun b => b.email == e), st)
  | none => (st.bookings, st)

/-- POST /rooms (src/main.py lines 73-76); `create_document` modelled from
the spec (§6) as for bookings. -/
def create_room (st : DB) (room : Room) : String × DB :=
  (toString st.rooms.length,
    { st with rooms := st.rooms ++ [⟨room, toString st.rooms.length⟩] })

/-- Sequential execution of a list of booking requests: each call either
succeeds and mutates the store, or raises and leaves it unchanged. -/
def runCreates : DB → List Booking → DB
  | st, [] => st
  | st, b :: rest =>
    match create_booking st b with
    | .ok p => runCreates p.2 rest
    | .error _ => runCreates st rest

/-- The half-open interval overlap rule on dates (spec §3):
`[ci1, co1)` and `[ci2, co2)` overlap iff `ci1 < co2` and `ci2 < co1`. -/
def dateOverlap (ci1 co1 ci2 co2 : PyDate) : Prop :=
  PyDate.lt ci1 co2 = true ∧ PyDate.lt ci2 co1 = true

instance (ci1 co1 ci2 co2 : PyDate) : Decidable (dateOverlap ci1 co1 ci2 co2) := by
  unfold dateOverlap; infer_instance

/-- Two stored bookings are compatible when, if they are on the same room and
neither is cancelled, their half-open date intervals do not overlap. -/
def bookingsCompat (s1 s2 : StoredBooking) : Prop :=
  s1.room_id = s2.room_id → s1.status ≠ "cancelled" → s2.status ≠ "cancelled" →
    ¬ dateOverlap s1.check_in s1.check_out s2.check_in s2.check_out

instance (s1 s2 : StoredBooking) : Decidable (bookingsCompat s1 s2) := by
  unfold bookingsCompat; infer_instance

/-- The ledger invariant: no two non-cancelled bookings on the same room have
overlapping half-open date intervals. -/
def NoOverlap (bs : List StoredBooking) : Prop := List.Pairwise bookingsCompat bs

instance (bs : List StoredBooking) : Decidable (NoOverlap bs) := by
  unfold NoOverlap; infer_instance

/-- All stored bookings carry dates in the ranges `datetime.date` enforces. -/
def datesValid (bs : List StoredBooking) : Prop :=
  ∀ s ∈ bs, s.check_in.validB = true ∧ s.check_out.validB = true

instance (bs : List StoredBooking) : Decidable (datesValid bs) := by
  unfold datesValid; infer_instance

/-- There is a non-cancelled booking for the request's room whose half-open
date interval overlaps the requested interval (the spec's `has_conflict`). -/
def hasConflictD (st : DB) (b : Booking) : Prop :=
  ∃ s ∈ st.bookings, s.room_id = b.room_id ∧ s.status ≠ "cancelled" ∧
    dateOverlap s.check_in s.check_out b.check_in b.check_out

instance (st : DB) (b : Booking) : Decidable (hasConflictD st b) := by
  unfold hasConflictD; infer_instance

theorem digitChar_toNat {d : Nat} (h : d < 10) : (digitChar d).toNat = 48 + d := by
  interval_cases d <;> decide

theorem char_toNat_inj {c d : Char} (h : c.toNat = d.toNat) : c = d := by
  apply Char.ext
  have h2 : c.val.toNat = d.val.toNat := h
  exact UInt32.ext h2

theorem split_lt (k n m : Nat) (hk : 0 < k) :
    n < m ↔ n / k < m / k ∨ (n / k = m / k ∧ n % k < m % k) := by
  constructor
  · intro h
    rcases Nat.lt_or_ge (n / k) (m / k) with h1 | h1
    · exact Or.inl h1
    have h3 : n / k ≤ m / k := Nat.div_le_div_right (le_of_lt h)
    have he : n / k = m / k := Nat.le_antisymm h3 h1
    refine Or.inr ⟨he, ?_⟩
    have e1 := Nat.div_add_mod n k
    have e2 := Nat.div_add_mod m k
    rw [← he] at e2
    linarith
  · rintro (h1 | ⟨he, hr⟩)
    · have e1 := Nat.div_add_mod n k
      have hn : n < k * (n / k) + k := by
        have := Nat.mod_lt n hk
        linarith
      have hmul : k * (n / k) + k ≤ k * (m / k) := by
        have h2 : n / k + 1 ≤ m / k := h1
        have h3 := Nat.mul_le_mul_left k h2
        have h4 : k * (n / k + 1) = k * (n / k) + k := by ring
        linarith
      have hm : k * (m / k) ≤ m := Nat.le.intro (Nat.div_add_mod m k)
      linarith
    · have e1 := Nat.div_add_mod n k
      have e2 := Nat.div_add_mod m k
      rw [← he] at e2
      linarith

theorem split_eq (k n m : Nat) (hk : 0 < k) :
    n = m ↔ n / k = m / k ∧ n % k = m % k := by
  constructor
  · intro h; exact ⟨by rw [h], by rw [h]⟩
  · rintro ⟨h1, h2⟩
    have e1 := Nat.div_add_mod n k
    have e2 := Nat.div_add_mod m k
    rw [← h1, ← h2] at e2
    linarith

theorem padDigits_lt : ∀ (w n m : Nat), n < 10 ^ w → m < 10 ^ w →
    (listLtB (padDigits w n) (padDigits w m) = true ↔ n < m)
  | 0, n, m, hn, hm => by
    simp only [pow_zero, Nat.lt_one_iff] at hn hm
    subst hn; subst hm
    simp [padDigits, listLtB]
  | w+1, n, m, hn, hm => by
    have hp : (0:Nat) < 10 ^ w := Nat.pos_pow_of_pos w (by omega)
    have hpow : (10:Nat) ^ (w+1) = 10 ^ w * 10 := pow_succ 10 w
    have hdn : n / 10 ^ w < 10 := by
      rw [Nat.div_lt_iff_lt_mul hp]; omega
    have hdm : m / 10 ^ w < 10 := by
      rw [Nat.div_lt_iff_lt_mul hp]; omega
    have hrn : n % 10 ^ w < 10 ^ w := Nat.mod_lt _ hp
    have hrm : m % 10 ^ w < 10 ^ w := Nat.mod_lt _ hp
    have ih := padDigits_lt w (n % 10 ^ w) (m % 10 ^ w) hrn hrm
    simp only [padDigits, listLtB, Bool.or_eq_true, Bool.and_eq_true,
      decide_eq_true_eq, beq_iff_eq, digitChar_toNat hdn, digitChar_toNat hdm, ih]
    rw [split_lt (10 ^ w) n m hp]
    constructor
    · rintro (h | ⟨he, ht⟩)
      · exact Or.inl (by omega)
      · exact Or.inr ⟨by omega, ht⟩
    · rintro (h | ⟨he, ht⟩)
      · exact Or.inl (by omega)
      · exact Or.inr ⟨by omega, ht⟩

theorem padDigits_inj : ∀ (w n m : Nat), n < 10 ^ w → m < 10 ^ w →
    (padDigits w n = padDigits w m ↔ n = m)
  | 0, n, m, hn, hm => by
    simp only [pow_zero, Nat.lt_one_iff] at hn hm
    simp [padDigits, hn, hm]
  | w+1, n, m, hn, hm => by
    have hp : (0:Nat) < 10 ^ w := Nat.pos_pow_of_pos w (by omega)
    have hpow : (10:Nat) ^ (w+1) = 10 ^ w * 10 := pow_succ 10 w
    have hdn : n / 10 ^ w < 10 := by
      rw [Nat.div_lt_iff_lt_mul hp]; omega
    have hdm : m / 10 ^ w < 10 := by
      rw [Nat.div_lt_iff_lt_mul hp]; omega
    have hrn : n % 10 ^ w < 10 ^ w := Nat.mod_lt _ hp
    have hrm : m % 10 ^ w < 10 ^ w := Nat.mod_lt _ hp
    have ih := padDigits_inj w (n % 10 ^ w) (m % 10 ^ w) hrn hrm
    simp only [padDigits, List.cons.injEq, ih]
    rw [split_eq (10 ^ w) n m hp]
    constructor
    · rintro ⟨h1, h2⟩
      refine ⟨?_, h2⟩
      have := congrArg Char.toNat h1
      rw [digitChar_toNat hdn, digitChar_toNat hdm] at this
      omega
    · rintro ⟨h1, h2⟩
      exact ⟨by rw [h1], h2⟩

theorem listLtB_cons_same (c : Char) (t1 t2 : List Char) :
    listLtB (c :: t1) (c :: t2) = listLtB t1 t2 := by
  simp [listLtB]

theorem listLtB_irrefl : ∀ l : List Char, listLtB l l = false
  | [] => rfl
  | c :: t => by simp [listLtB, listLtB_irrefl t]

theorem strLt_irrefl (s : String) : strLt s s = false := listLtB_irrefl s.data

theorem listLtB_append : ∀ (l1 l2 t1 t2 : List Char), l1.length = l2.length →
    (listLtB (l1 ++ t1) (l2 ++ t2) = true ↔
      listLtB l1 l2 = true ∨ (l1 = l2 ∧ listLtB t1 t2 = true))
  | [], [], t1, t2, _ => by simp [listLtB]
  | [], _ :: _, _, _, h => by simp at h
  | _ :: _, [], _, _, h => by simp at h
  | a :: as, b :: bs, t1, t2, h => by
    have ih := listLtB_append as bs t1 t2 (by simpa using h)
    have e1 : listLtB ((a :: as) ++ t1) ((b :: bs) ++ t2)
        = (a.toNat < b.toNat || (a.toNat == b.toNat && listLtB (as ++ t1) (bs ++ t2))) := rfl
    have e2 : listLtB (a :: as) (b :: bs)
        = (a.toNat < b.toNat || (a.toNat == b.toNat && listLtB as bs)) := rfl
    rw [e1, e2]
    simp only [Bool.or_eq_true, Bool.and_eq_true, decide_eq_true_eq, beq_iff_eq, ih,
      List.cons.injEq]
    constructor
    · rintro (h1 | ⟨he, (h2 | ⟨he2, h3⟩)⟩)
      · exact Or.inl (Or.inl h1)
      · exact Or.inl (Or.inr ⟨he, h2⟩)
      · exact Or.inr ⟨⟨char_toNat_inj he, he2⟩, h3⟩
    · rintro ((h1 | ⟨he, h2⟩) | ⟨⟨he1, he2⟩, h3⟩)
      · exact Or.inl h1
      · exact Or.inr ⟨he, Or.inl h2⟩
      · exact Or.inr ⟨by rw [he1], Or.inr ⟨he2, h3⟩⟩

theorem padDigits_length : ∀ (w n : Nat), (padDigits w n).length = w
  | 0, _ => rfl
  | w+1, n => by simp [padDigits, padDigits_length w]

theorem strLt_isoformat (a b : PyDate) (ha : a.validB = true) (hb : b.validB = true) :
    strLt a.isoformat b.isoformat = PyDate.lt a b := by
  simp only [PyDate.validB, Bool.and_eq_true, decide_eq_true_eq] at ha hb
  obtain ⟨⟨⟨⟨⟨hy1a, hy2a⟩, hm1a⟩, hm2a⟩, hd1a⟩, hd2a⟩ := ha
  obtain ⟨⟨⟨⟨⟨hy1b, hy2b⟩, hm1b⟩, hm2b⟩, hd1b⟩, hd2b⟩ := hb
  have hya : a.year < 10 ^ 4 := by norm_num; omega
  have hyb : b.year < 10 ^ 4 := by norm_num; omega
  have hma : a.month < 10 ^ 2 := by norm_num; omega
  have hmb : b.month < 10 ^ 2 := by norm_num; omega
  have hda : a.day < 10 ^ 2 := by norm_num; omega
  have hdb : b.day < 10 ^ 2 := by norm_num; omega
  have main : strLt a.isoformat b.isoformat = true ↔ PyDate.lt a b = true := by
    show listLtB
        (padDigits 4 a.year ++ '-' :: (padDigits 2 a.month ++ '-' :: padDigits 2 a.day))
        (padDigits 4 b.year ++ '-' :: (padDigits 2 b.month ++ '-' :: padDigits 2 b.day))
        = true ↔ PyDate.lt a b = true
    rw [listLtB_append _ _ _ _ (by rw [padDigits_length, padDigits_length]),
      listLtB_cons_same,
      listLtB_append _ _ _ _ (by rw [padDigits_length, padDigits_length]),
      listLtB_cons_same,
      padDigits_lt 4 _ _ hya hyb, padDigits_inj 4 _ _ hya hyb,
      padDigits_lt 2 _ _ hma hmb, padDigits_inj 2 _ _ hma hmb,
      padDigits_lt 2 _ _ hda hdb]
    simp only [PyDate.lt, Bool.or_eq_true, Bool.and_eq_true, decide_eq_true_eq, beq_iff_eq]
  cases h1 : strLt a.isoformat b.isoformat <;> cases h2 : PyDate.lt a b <;> simp_all

theorem pydate_lt_irrefl (d : PyDate) : PyDate.lt d d = false := by
  simp [PyDate.lt]

theorem pydate_le_eq_false_iff (a b : PyDate) :
    PyDate.le a b = false ↔ PyDate.lt b a = true := by
  simp only [PyDate.le, PyDate.lt, Bool.or_eq_false_iff, Bool.or_eq_true,
    Bool.and_eq_false_iff, Bool.and_eq_true, decide_eq_true_eq, decide_eq_false_iff_not,
    beq_iff_eq, beq_eq_false_iff_ne, ne_eq]
  omega

theorem overlapFilterB_iff (rid : String) (ci co : PyDate) (s : StoredBooking)
    (hs1 : s.check_in.validB = true) (hs2 : s.check_out.validB = true)
    (hci : ci.validB = true) (hco : co.validB = true) :
    (overlapFilterB rid ci co s = true ↔
      s.room_id = rid ∧ s.status ≠ "cancelled" ∧
        dateOverlap s.check_in s.check_out ci co) := by
  unfold overlapFilterB dateOverlap
  rw [strLt_isoformat _ _ hs1 hco, strLt_isoformat _ _ hci hs2]
  simp only [Bool.and_eq_true, beq_iff_eq, bne_iff_ne, ne_eq]
  tauto

theorem availOverlapFilterB_iff (ci co : PyDate) (s : StoredBooking)
    (hs1 : s.check_in.validB = true) (hs2 : s.check_out.validB = true)
    (hci : ci.validB = true) (hco : co.validB = true) :
    (availOverlapFilterB ci co s = true ↔
      s.status ≠ "cancelled" ∧ dateOverlap s.check_in s.check_out ci co) := by
  unfold availOverlapFilterB dateOverlap
  rw [strLt_isoformat _ _ hs1 hco, strLt_isoformat _ _ hci hs2]
  simp only [Bool.and_eq_true, bne_iff_ne, ne_eq]
  tauto

theorem conflict_find_none_iff (st : DB) (b : Booking)
    (hwf : datesValid st.bookings)
    (hb1 : b.check_in.validB = true) (hb2 : b.check_out.validB = true) :
    (st.bookings.find? (overlapFilterB b.room_id b.check_in b.check_out) = none
      ↔ ¬ hasConflictD st b) := by
  rw [List.find?_eq_none]
  unfold hasConflictD
  constructor
  · rintro h ⟨s, hs, hrid, hstat, hov⟩
    exact h s hs (by
      rw [overlapFilterB_iff b.room_id b.check_in b.check_out s (hwf s hs).1 (hwf s hs).2 hb1 hb2]
      exact ⟨hrid, hstat, hov⟩)
  · intro h s hs hp
    rw [overlapFilterB_iff b.room_id b.check_in b.check_out s (hwf s hs).1 (hwf s hs).2 hb1 hb2] at hp
    exact h ⟨s, hs, hp⟩

theorem create_booking_ok_inv {st : DB} {b : Booking} {bid : String} {st2 : DB}
    (h : create_booking st b = .ok (bid, st2)) :
    isValidObjectId b.room_id = true ∧
      st.bookings.find? (overlapFilterB b.room_id b.check_in b.check_out) = none ∧
      bid = toString st.bookings.length ∧
      st2 = { st with bookings := st.bookings ++ [⟨b, toString st.bookings.length⟩] } := by
  unfold create_booking create_booking_document at h
  split at h
  · exact absurd h (by simp)
  · rename_i hval
    split at h
    · exact absurd h (by simp)
    · split at h
      · exact absurd h (by simp)
      · rename_i hnone
        simp only [ApiResult.ok.injEq, Prod.mk.injEq] at h
        refine ⟨by simpa using hval, hnone, h.1.symm, h.2.symm⟩

theorem create_booking_error_iff_not_ok (st : DB) (b : Booking) :
    (create_booking st b).isOk = false ↔ ∃ e, create_booking st b = .error e := by
  cases h : create_booking st b <;> simp [ApiResult.isOk]

theorem create_booking_succeeds (st : DB) (b : Booking)
    (hid : isValidObjectId b.room_id = true)
    (hroom : ∃ r ∈ st.rooms, r.id = b.room_id)
    (hnone : st.bookings.find? (overlapFilterB b.room_id b.check_in b.check_out) = none) :
    create_booking st b = .ok (toString st.bookings.length,
      { st with bookings := st.bookings ++ [⟨b, toString st.bookings.length⟩] }) := by
  have hsome : (st.rooms.find? (fun r => r.id == b.room_id)).isSome = true := by
    rw [List.find?_isSome]
    obtain ⟨r, hr, he⟩ := hroom
    exact ⟨r, hr, by simpa using he⟩
  obtain ⟨r, hr⟩ := Option.isSome_iff_exists.mp hsome
  unfold create_booking create_booking_document
  rw [hid, hr, hnone]
  rfl

theorem stored_check_in (b : Booking) (bid : String) :
    (StoredBooking.mk b bid).check_in = b.check_in := rfl

theorem stored_check_out (b : Booking) (bid : String) :
    (StoredBooking.mk b bid).check_out = b.check_out := rfl

theorem step_preserves {st : DB} {b : Booking} {bid : String} {st2 : DB}
    (hwf : datesValid st.bookings)
    (hb1 : b.check_in.validB = true) (hb2 : b.check_out.validB = true)
    (hinv : NoOverlap st.bookings)
    (h : create_booking st b = .ok (bid, st2)) :
    NoOverlap st2.bookings ∧ datesValid st2.bookings := by
  obtain ⟨hid, hnone, hbid, hst2⟩ := create_booking_ok_inv h
  subst hst2
  constructor
  · unfold NoOverlap
    rw [List.pairwise_append]
    refine ⟨hinv, List.pairwise_singleton _ _, ?_⟩
    intro s hs x hx
    rw [List.mem_singleton] at hx
    subst hx
    intro hroom hs_stat hx_stat hov
    rw [List.find?_eq_none] at hnone
    apply hnone s hs
    rw [overlapFilterB_iff b.room_id b.check_in b.check_out s (hwf s hs).1 (hwf s hs).2 hb1 hb2]
    exact ⟨hroom, hs_stat, hov⟩
  · intro s hs
    rw [List.mem_append, List.mem_singleton] at hs
    rcases hs with hs | hs
    · exact hwf s hs
    · subst hs
      exact ⟨hb1, hb2⟩

theorem runCreates_preserves : ∀ (reqs : List Booking) (st : DB),
    datesValid st.bookings →
    (∀ b ∈ reqs, b.check_in.validB = true ∧ b.check_out.validB = true) →
    NoOverlap st.bookings →
    NoOverlap (runCreates st reqs).bookings ∧ datesValid (runCreates st reqs).bookings
  | [], st, hwf, _, hinv => ⟨hinv, hwf⟩
  | b :: rest, st, hwf, hreqs, hinv => by
    have hb := hreqs b (List.mem_cons_self b rest)
    have hrest : ∀ x ∈ rest, x.check_in.validB = true ∧ x.check_out.validB = true :=
      fun x hx => hreqs x (List.mem_cons_of_mem b hx)
    cases h : create_booking st b with
    | ok p =>
      obtain ⟨bid2, stp⟩ := p
      obtain ⟨no2, wf2⟩ := step_preserves hwf hb.1 hb.2 hinv h
      have : runCreates st (b :: rest) = runCreates stp rest := by
        show (match create_booking st b with
          | .ok p => runCreates p.2 rest
          | .error _ => runCreates st rest) = runCreates stp rest
        rw [h]
      rw [this]
      exact runCreates_preserves rest stp wf2 hrest no2
    | error e =>
      have : runCreates st (b :: rest) = runCreates st rest := by
        show (match create_booking st b with
          | .ok p => runCreates p.2 rest
          | .error _ => runCreates st rest) = runCreates st rest
        rw [h]
      rw [this]
      exact runCreates_preserves rest st hwf hrest hinv

theorem create_booking_conflict_of_found {st : DB} {b : Booking} {s : StoredBooking}
    (hid : isValidObjectId b.room_id = true)
    (hroom : ∃ r ∈ st.rooms, r.id = b.room_id)
    (hfind : st.bookings.find? (overlapFilterB b.room_id b.check_in b.check_out) = some s) :
    create_booking st b = .error (.conflict "Room not available for selected dates") := by
  have hsome : (st.rooms.find? (fun r => r.id == b.room_id)).isSome = true := by
    rw [List.find?_isSome]
    obtain ⟨r, hr, he⟩ := hroom
    exact ⟨r, hr, by simpa using he⟩
  obtain ⟨r, hr⟩ := Option.isSome_iff_exists.mp hsome
  unfold create_booking
  rw [hid, hr, hfind]
  rfl

/-- Room A of the spec's scenarios: capacity 2, persisted with a 24-hex id. -/
def roomA : StoredRoom :=
  ⟨⟨"Room A", "Suite", some "Ocean view", 1, 2, 100, ["wifi"], []⟩,
    "64a000000000000000000001"⟩

/-- A booking request for room A with the given dates, guest count and status. -/
def mkReq (ci co : PyDate) (guests : Nat) (status : String) : Booking :=
  ⟨"64a000000000000000000001", "Guest One", "guest.one@example.com", none,
    ci, co, guests, none, status⟩

def bkJun1to5 : Booking := mkReq ⟨2024, 6, 1⟩ ⟨2024, 6, 5⟩ 2 "confirmed"

def bkJun3to7 : Booking := mkReq ⟨2024, 6, 3⟩ ⟨2024, 6, 7⟩ 2 "confirmed"

def bkJun5to8 : Booking := mkReq ⟨2024, 6, 5⟩ ⟨2024, 6, 8⟩ 2 "confirmed"

def bkJun5to5 : Booking := mkReq ⟨2024, 6, 5⟩ ⟨2024, 6, 5⟩ 2 "confirmed"

def bkJun1to5g5 : Booking := mkReq ⟨2024, 6, 1⟩ ⟨2024, 6, 5⟩ 5 "confirmed"

/-- Room A exists, no bookings. -/
def dbEmpty : DB := ⟨[roomA], []⟩

/-- Room A booked for [2024-06-01, 2024-06-05), confirmed. -/
def dbOne : DB := ⟨[roomA], [⟨bkJun1to5, "0"⟩]⟩

/-- Room A's [2024-06-01, 2024-06-05) booking exists but is cancelled. -/
def dbOneCancelled : DB := ⟨[roomA], [⟨{ bkJun1to5 with status := "cancelled" }, "0"⟩]⟩

/-- C1: for every sequence of sequential `create_booking` calls starting from
a state whose non-cancelled bookings on the same room never overlap (and
whose stored dates are real calendar dates), the resulting booking collection
still contains no two non-cancelled bookings on the same room whose
half-open date intervals overlap. -/
theorem create_booking_seq_preserves_no_overlap (st : DB) (reqs : List Booking)
    (hwf : datesValid st.bookings)
    (hreqs : ∀ b ∈ reqs, b.check_in.validB = true ∧ b.check_out.validB = true)
    (hinv : NoOverlap st.bookings) :
    NoOverlap (runCreates st reqs).bookings :=
  (runCreates_preserves reqs st hwf hreqs hinv).1

/-- Witness for C1: two overlapping requests against an empty ledger. -/
theorem create_booking_seq_preserves_no_overlap_witness :
    NoOverlap (runCreates dbEmpty [bkJun1to5, bkJun3to7]).bookings :=
  create_booking_seq_preserves_no_overlap dbEmpty [bkJun1to5, bkJun3to7]
    (by decide) (by decide) (by decide)

/-- C2: when the requested room exists, `create_booking` fails with the 409
Conflict error iff some non-cancelled booking on the same room overlaps the
requested half-open interval; when only cancelled bookings overlap, the
request succeeds. -/
theorem create_booking_conflict_iff (st : DB) (b : Booking)
    (hid : isValidObjectId b.room_id = true)
    (hroom : ∃ r ∈ st.rooms, r.id = b.room_id)
    (hwf : datesValid st.bookings)
    (hb1 : b.check_in.validB = true) (hb2 : b.check_out.validB = true) :
    (create_booking st b = .error (.conflict "Room not available for selected dates")
      ↔ hasConflictD st b) ∧
    (¬ hasConflictD st b → (create_booking st b).isOk = true) := by
  have hsucc : ¬ hasConflictD st b → (create_booking st b).isOk = true := by
    intro hnc
    rw [create_booking_succeeds st b hid hroom
      ((conflict_find_none_iff st b hwf hb1 hb2).mpr hnc)]
    rfl
  refine ⟨⟨?_, ?_⟩, hsucc⟩
  · intro h
    by_contra hnc
    have := hsucc hnc
    rw [h] at this
    exact absurd this (by simp [ApiResult.isOk])
  · intro hc
    cases hfind : st.bookings.find? (overlapFilterB b.room_id b.check_in b.check_out) with
    | none =>
      exact absurd hc ((conflict_find_none_iff st b hwf hb1 hb2).mp hfind)
    | some s =>
      exact create_booking_conflict_of_found hid hroom hfind

/-- Witness for C2: the cancelled [2024-06-01, 2024-06-05) booking does not
block the overlapping request [2024-06-03, 2024-06-07). -/
theorem create_booking_conflict_iff_witness :
    (create_booking dbOneCancelled bkJun3to7
        = .error (.conflict "Room not available for selected dates")
      ↔ hasConflictD dbOneCancelled bkJun3to7) ∧
    (¬ hasConflictD dbOneCancelled bkJun3to7 →
      (create_booking dbOneCancelled bkJun3to7).isOk = true) :=
  create_booking_conflict_iff dbOneCancelled bkJun3to7
    (by decide) (by decide) (by decide) (by decide) (by decide)

/-- C7: a booking whose guest count exceeds the room's capacity is not
rejected on that ground — it succeeds whenever the room exists and no
non-cancelled booking overlaps (src/main.py lines 120-140 never read
`capacity`; src/schemas.py line 45 only bounds `guests` to 1–12). -/
theorem guests_over_capacity_not_rejected (st : DB) (b : Booking)
    (hid : isValidObjectId b.room_id = true)
    (hcap : ∃ r ∈ st.rooms, r.id = b.room_id ∧ r.capacity < b.guests)
    (hg1 : 1 ≤ b.guests) (hg12 : b.guests ≤ 12)
    (hwf : datesValid st.bookings)
    (hb1 : b.check_in.validB = true) (hb2 : b.check_out.validB = true)
    (hnc : ¬ hasConflictD st b) :
    (create_booking st b).isOk = true := by
  obtain ⟨r, hr, hrid, _⟩ := hcap
  rw [create_booking_succeeds st b hid ⟨r, hr, hrid⟩
    ((conflict_find_none_iff st b hwf hb1 hb2).mpr hnc)]
  rfl

/-- Witness for C7: 5 guests booked into room A of capacity 2. -/
theorem guests_over_capacity_not_rejected_witness :
    (create_booking dbEmpty bkJun1to5g5).isOk = true :=
  guests_over_capacity_not_rejected dbEmpty bkJun1to5g5
    (by decide) (by decide) (by decide) (by decide) (by decide) (by decide)
    (by decide) (by decide)

/-- C8: the ISO-8601 serialization used for storage is order-preserving —
for calendar dates, `isoformat` strings compare lexicographically exactly as
the dates compare chronologically, so the string comparisons in the overlap
queries decide the date comparisons of the interval rule. -/
theorem isoformat_preserves_order (a b : PyDate)
    (ha : a.validB = true) (hb : b.validB = true) :
    (strLt a.isoformat b.isoformat = true ↔ PyDate.lt a b = true) := by
  rw [strLt_isoformat a b ha hb]

/-- Witness for C8 at 2024-06-03 and 2024-06-05. -/
theorem isoformat_preserves_order_witness :
    (strLt (PyDate.isoformat ⟨2024, 6, 3⟩) (PyDate.isoformat ⟨2024, 6, 5⟩) = true
      ↔ PyDate.lt ⟨2024, 6, 3⟩ ⟨2024, 6, 5⟩ = true) :=
  isoformat_preserves_order ⟨2024, 6, 3⟩ ⟨2024, 6, 5⟩ (by decide) (by decide)

/-- C3 (divergence evidence): with `check_out = check_in = 2024-06-05`,
`check_availability` rejects the range with the 400 error, but
`create_booking` has no such guard — against a room with no bookings the
zero-night request is inserted and the call returns its new id, mutating the
ledger (src/main.py lines 120-140 never compare `check_in` and
`check_out`). -/
theorem zero_night_booking_inserted :
    PyDate.le bkJun5to5.check_out bkJun5to5.check_in = true ∧
    check_availability dbEmpty bkJun5to5.check_in bkJun5to5.check_out bkJun5to5.guests
      = .error (.badRequest "Check-out must be after check-in") ∧
    create_booking dbEmpty bkJun5to5
      = .ok ("0", ⟨[roomA], [⟨bkJun5to5, "0"⟩]⟩) := by
  refine ⟨rfl, rfl, rfl⟩

/-- C4: equal boundaries are not an overlap — a stored booking whose
`check_out` equals the request's `check_in` never matches the conflict
filter, and a back-to-back request succeeds when every other same-room
non-cancelled booking is back-to-back or non-overlapping. -/
theorem back_to_back_not_conflict (st : DB) (b : Booking)
    (hid : isValidObjectId b.room_id = true)
    (hroom : ∃ r ∈ st.rooms, r.id = b.room_id)
    (hwf : datesValid st.bookings)
    (hb1 : b.check_in.validB = true) (hb2 : b.check_out.validB = true)
    (hprev : ∀ s ∈ st.bookings, s.room_id = b.room_id → s.status ≠ "cancelled" →
      s.check_out = b.check_in ∨
        ¬ dateOverlap s.check_in s.check_out b.check_in b.check_out) :
    (∀ s : StoredBooking, s.check_out = b.check_in →
      overlapFilterB b.room_id b.check_in b.check_out s = false) ∧
    (create_booking st b).isOk = true := by
  constructor
  · intro s hback
    unfold overlapFilterB
    have h : strLt b.check_in.isoformat s.check_out.isoformat = false := by
      rw [hback]; exact strLt_irrefl _
    simp [h]
  · have hnone : st.bookings.find?
        (overlapFilterB b.room_id b.check_in b.check_out) = none := by
      rw [List.find?_eq_none]
      intro s hs hp
      rw [overlapFilterB_iff b.room_id b.check_in b.check_out s
        (hwf s hs).1 (hwf s hs).2 hb1 hb2] at hp
      obtain ⟨hrid, hstat, hov⟩ := hp
      rcases hprev s hs hrid hstat with hback | hno
      · have h2 := hov.2
        rw [hback, pydate_lt_irrefl] at h2
        exact absurd h2 (by simp)
      · exact hno hov
    rw [create_booking_succeeds st b hid hroom hnone]
    rfl

/-- Witness for C4: room A holds [2024-06-01, 2024-06-05); the request
[2024-06-05, 2024-06-08) starting on the checkout day succeeds. -/
theorem back_to_back_not_conflict_witness :
    (∀ s : StoredBooking, s.check_out = bkJun5to8.check_in →
      overlapFilterB bkJun5to8.room_id bkJun5to8.check_in bkJun5to8.check_out s = false) ∧
    (create_booking dbOne bkJun5to8).isOk = true :=
  back_to_back_not_conflict dbOne bkJun5to8
    (by decide) (by decide) (by decide) (by decide) (by decide) (by decide)

/-- C9: the read paths are pure — `list_rooms` and `list_bookings` return the
stored collections and leave the state exactly as it was, so a second call
with the same argument yields the same result. -/
theorem read_paths_no_mutation (st : DB) (email : Option String) :
    (list_rooms st).2 = st ∧ (list_bookings st email).2 = st ∧
    (list_rooms (list_rooms st).2).1 = (list_rooms st).1 ∧
    (list_bookings (list_bookings st email).2 email).1 = (list_bookings st email).1 := by
  cases email with
  | none => exact ⟨rfl, rfl, rfl, rfl⟩
  | some e =>
    by_cases he : e = "" <;>
      simp [list_rooms, list_bookings, he]

/-- C10: an empty-string email argument is falsy in the handler, so it
returns every booking exactly as the no-argument call does; the equality
filter only ever applies for a non-empty email, so a booking whose stored
email is empty is never selected by the filter. -/
theorem empty_email_never_filters (st : DB) (e : String) (he : e ≠ "") :
    (list_bookings st (some "")).1 = (list_bookings st none).1 ∧
    (list_bookings st (some "")).1 = st.bookings ∧
    ∀ s ∈ (list_bookings st (some e)).1, s.email ≠ "" := by
  have h1 : list_bookings st (some "") = (st.bookings, st) := by
    simp [list_bookings]
  have h3 : list_bookings st (some e)
      = (st.bookings.filter (fun b => b.email == e), st) := by
    simp [list_bookings, he]
  refine ⟨by rw [h1]; rfl, by rw [h1], ?_⟩
  intro s hs
  rw [h3] at hs
  rw [List.mem_filter, beq_iff_eq] at hs
  rw [hs.2]
  exact he

/-- Witness for C10 with the non-empty email filter "x". -/
theorem empty_email_never_filters_witness :
    (list_bookings dbOne (some "")).1 = (list_bookings dbOne none).1 ∧
    (list_bookings dbOne (some "")).1 = dbOne.bookings ∧
    ∀ s ∈ (list_bookings dbOne (some "x")).1, s.email ≠ "" :=
  empty_email_never_filters dbOne "x" (by decide)

theorem contains_iff_mem_ids (ids : List String) (x : String) :
    (ids.contains x = true ↔ x ∈ ids) := List.elem_iff

/-- C5: for a valid interval, the availability query returns exactly the
rooms with enough capacity and no overlapping non-cancelled booking, even
though the code collects overlapping bookings across all rooms in one query
and excludes candidates by room-id set membership. -/
theorem check_availability_exact (st : DB) (ci co : PyDate) (g : Nat)
    (hci : ci.validB = true) (hco : co.validB = true)
    (hlt : PyDate.lt ci co = true)
    (hwf : datesValid st.bookings) :
    ∃ l, check_availability st ci co g = .ok l ∧
      ∀ r : StoredRoom, r ∈ l ↔
        (r ∈ st.rooms ∧ g ≤ r.capacity ∧
          ¬ ∃ s ∈ st.bookings, s.room_id = r.id ∧ s.status ≠ "cancelled" ∧
            dateOverlap s.check_in s.check_out ci co) := by
  have hguard : PyDate.le co ci = false := (pydate_le_eq_false_iff co ci).mpr hlt
  refine ⟨(st.rooms.filter (fun r => g ≤ r.capacity)).filter
    (fun r => !((st.bookings.filter (availOverlapFilterB ci co)).map
      (fun b => b.room_id)).contains r.id), ?_, ?_⟩
  · unfold check_availability
    rw [if_neg (by rw [hguard]; simp)]
  · intro r
    have hbooked : ∀ x : String,
        (((st.bookings.filter (availOverlapFilterB ci co)).map
            (fun b => b.room_id)).contains x = true
          ↔ ∃ s ∈ st.bookings, s.room_id = x ∧ s.status ≠ "cancelled" ∧
              dateOverlap s.check_in s.check_out ci co) := by
      intro x
      rw [contains_iff_mem_ids, List.mem_map]
      constructor
      · rintro ⟨s, hsf, he⟩
        rw [List.mem_filter] at hsf
        have hav := (availOverlapFilterB_iff ci co s
          (hwf s hsf.1).1 (hwf s hsf.1).2 hci hco).mp hsf.2
        exact ⟨s, hsf.1, he, hav.1, hav.2⟩
      · rintro ⟨s, hs, he, hstat, hov⟩
        exact ⟨s, List.mem_filter.mpr ⟨hs,
          (availOverlapFilterB_iff ci co s (hwf s hs).1 (hwf s hs).2 hci hco).mpr
            ⟨hstat, hov⟩⟩, he⟩
    rw [List.mem_filter, List.mem_filter]
    simp only [decide_eq_true_eq, Bool.not_eq_true', and_assoc]
    constructor
    · rintro ⟨hmem, hcap, hnc⟩
      refine ⟨hmem, hcap, ?_⟩
      intro hex
      rw [← hbooked r.id] at hex
      rw [hex] at hnc
      exact absurd hnc (by simp)
    · rintro ⟨hmem, hcap, hnb⟩
      refine ⟨hmem, hcap, ?_⟩
      cases hc : ((st.bookings.filter (availOverlapFilterB ci co)).map
          (fun b => b.room_id)).contains r.id with
      | false => rfl
      | true => exact absurd ((hbooked r.id).mp hc) hnb

/-- Witness for C5: querying [2024-06-01, 2024-06-05) for 2 guests against
the state where room A holds that interval. -/
theorem check_availability_exact_witness :
    ∃ l, check_availability dbOne ⟨2024, 6, 1⟩ ⟨2024, 6, 5⟩ 2 = .ok l ∧
      ∀ r : StoredRoom, r ∈ l ↔
        (r ∈ dbOne.rooms ∧ 2 ≤ r.capacity ∧
          ¬ ∃ s ∈ dbOne.bookings, s.room_id = r.id ∧ s.status ≠ "cancelled" ∧
            dateOverlap s.check_in s.check_out ⟨2024, 6, 1⟩ ⟨2024, 6, 5⟩) :=
  check_availability_exact dbOne ⟨2024, 6, 1⟩ ⟨2024, 6, 5⟩ 2
    (by decide) (by decide) (by decide) (by decide)

/-- One in-flight `create_booking` request in the interleaving model.
`pc` is its progress: 0 = about to run the handler's reads and the
conflict `find_one`; 1 = conflict check passed, `insert_one` still pending;
2 = returned ok; 3 = returned an error. -/
structure Attempt where
  booking : Booking
  pc : Nat
deriving DecidableEq, Repr

/-- One step of an attempt against the shared store.  The source handler
performs the conflict `find_one` (src/main.py line 129) and the
`insert_one` (line 139) as two separate store operations with no lock or
transaction between them, so steps of other requests may be interleaved
between them; the id validation, room lookup and conflict decision are
read-only and form the first step. -/
def raceStep (st : DB) (a : Attempt) : DB × Attempt :=
  match a.pc with
  | 0 =>
    if !isValidObjectId a.booking.room_id then (st, { a with pc := 3 })
    else match st.rooms.find? (fun r => r.id == a.booking.room_id) with
      | none => (st, { a with pc := 3 })
      | some _ =>
        match st.bookings.find?
            (overlapFilterB a.booking.room_id a.booking.check_in a.booking.check_out) with
        | some _ => (st, { a with pc := 3 })
        | none => (st, { a with pc := 1 })
  | 1 => ({ st with bookings := (create_booking_document st.bookings a.booking).2 },
      { a with pc := 2 })
  | _ => (st, a)

/-- Run an interleaving of two concurrent attempts: `true` steps the first
attempt, `false` the second. -/
def runSchedule : List Bool → DB → Attempt → Attempt → DB × Attempt × Attempt
  | [], st, a1, a2 => (st, a1, a2)
  | c :: rest, st, a1, a2 =>
    if c then
      let r := raceStep st a1
      runSchedule rest r.1 r.2 a2
    else
      let r := raceStep st a2
      runSchedule rest r.1 a1 r.2

/-- C6 (divergence evidence): two identical booking attempts for room A and
[2024-06-01, 2024-06-05).  Run serially (first attempt finishes before the
second starts) exactly one succeeds and the other gets the Conflict error,
as the claim demands; but under the interleaving check-check-insert-insert,
which the unguarded `find_one`-then-`insert_one` sequence permits, both
attempts return ok and the ledger ends with two overlapping non-cancelled
bookings on the same room. -/
theorem concurrent_attempts_can_both_succeed :
    ((runSchedule [true, true, false, false] dbEmpty
        ⟨bkJun1to5, 0⟩ ⟨bkJun1to5, 0⟩).2.1.pc = 2 ∧
      (runSchedule [true, true, false, false] dbEmpty
        ⟨bkJun1to5, 0⟩ ⟨bkJun1to5, 0⟩).2.2.pc = 3) ∧
    (runSchedule [true, false, true, false] dbEmpty
      ⟨bkJun1to5, 0⟩ ⟨bkJun1to5, 0⟩).2.1.pc = 2 ∧
    (runSchedule [true, false, true, false] dbEmpty
      ⟨bkJun1to5, 0⟩ ⟨bkJun1to5, 0⟩).2.2.pc = 2 ∧
    ¬ NoOverlap (runSchedule [true, false, true, false] dbEmpty
      ⟨bkJun1to5, 0⟩ ⟨bkJun1to5, 0⟩).1.bookings := by
  decide
